import Mathlib

/-!
Verification of the thetc-auth core against its specification.

The development shallowly embeds the Rust source of the repository:
pure functions become Lean functions, stateful operations become explicit
state passing (`State → Result × State`), and fallible network calls are
modelled by explicit fault flags (each flag corresponds to one `?` operator
in the source that can surface a storage error). Random identifier
generation (UUIDs, database sequence ids) is modelled by a `nextId`
counter or an explicit id parameter, preserving only freshness.
-/

deriving instance DecidableEq for Except

/-! ## AppAuth cache-aside verifier: `src/appauth/postgres_redis.rs` -/

namespace AppauthPR

/-- Error enum of `appauth/postgres_redis.rs`: sqlx errors (both directly
and via pool acquisition), redis pool errors, redis protocol errors, and
the invalid-token rejection. -/
inductive Error where
  | sqlx
  | redisPool
  | redis
  | invalidToken
deriving DecidableEq, Repr

/-- The `AppAuth` record (`appauth/mod.rs`): id, name, optional
description, secret token, metadata blob and optional absolute expiry.
The `meta : serde_json::Value` blob is carried as an opaque string. -/
structure AppAuth where
  id : Nat
  name : String
  description : Option String
  token : String
  meta : String
  expiresAt : Option Int
deriving DecidableEq, Repr

/-- The `NewAppAuth` insertion payload (`appauth/mod.rs`). -/
structure NewAppAuth where
  name : String
  description : Option String
  token : String
  meta : String
  expiresAt : Option Int
deriving DecidableEq, Repr

/-- Combined state of the two injected stores: the redis cache (key
`appauth/id` holds the token string, written with an optional `EXAT`
absolute expiry) and the postgres table (rows keyed by id), plus the
sequence counter behind `INSERT ... RETURNING id`. -/
structure St where
  redis : Nat → Option (String × Option Int)
  pg : Nat → Option AppAuth
  pgNextId : Nat

/-- Fault flags for `verify_token`: one per fallible storage step, in
source order — `redis_pool.get()`, the redis `GET`, `pg_pool.acquire()`,
the postgres `SELECT`, and the cache rewrite inside `set_redis_token`. -/
structure VerifyFaults where
  redisConn : Bool
  redisGet : Bool
  pgConn : Bool
  pgQuery : Bool
  redisSet : Bool
deriving DecidableEq, Repr

/-- The fault assignment in which every storage call succeeds. -/
def noFaults : VerifyFaults :=
  { redisConn := false, redisGet := false, pgConn := false,
    pgQuery := false, redisSet := false }

/-- Embedding of `set_redis_token` (postgres_redis.rs:74-91): `SET
appauth/id token [EXAT expiry]`; on a pool/protocol failure the error is
returned and the cache is unchanged. -/
def set_redis_token (fail : Bool) (st : St) (appauth : AppAuth) :
    Except Error St :=
  if fail then .error .redisPool
  else .ok { st with
    redis := fun k =>
      if k = appauth.id then some (appauth.token, appauth.expiresAt)
      else st.redis k }

/-- Embedding of `database::find_appauth_by_id` (postgres_redis.rs:176-199):
`SELECT * FROM t WHERE id = $1` via `fetch_one`, so an absent row is an
sqlx error (RowNotFound). -/
def find_appauth_by_id (fail : Bool) (st : St) (id : Nat) :
    Except Error AppAuth :=
  if fail then .error .sqlx
  else match st.pg id with
    | some r => .ok r
    | none => .error .sqlx

/-- Embedding of `database::insert_app_auth` (postgres_redis.rs:201-222):
insert the payload, returning the generated id. -/
def insert_app_auth (fail : Bool) (st : St) (appauth : NewAppAuth) :
    Except Error (Nat × St) :=
  if fail then .error .sqlx
  else
    let id := st.pgNextId
    .ok (id, { st with
      pg := fun k =>
        if k = id then
          some { id := id, name := appauth.name,
                 description := appauth.description,
                 token := appauth.token, meta := appauth.meta,
                 expiresAt := appauth.expiresAt }
        else st.pg k,
      pgNextId := id + 1 })

/-- Embedding of `verify_token` (postgres_redis.rs:106-128). Steps: redis
connection, redis `GET`; on a present and equal cache value return `Ok`;
otherwise acquire postgres, `find_appauth_by_id`; on token mismatch,
`set_redis_token` with the durable record then `InvalidToken`; on match,
`Ok`. Every `?` in the source is a fault flag or a state-dependent error. -/
def verify_token (f : VerifyFaults) (st : St) (id : Nat) (token : String) :
    Except Error Unit × St :=
  if f.redisConn then (.error .redisPool, st)
  else if f.redisGet then (.error .redis, st)
  else
    let cacheHit : Bool :=
      match st.redis id with
      | some rt => rt.1 = token
      | none => false
    if cacheHit then (.ok (), st)
    else if f.pgConn then (.error .sqlx, st)
    else match find_appauth_by_id f.pgQuery st id with
      | .error e => (.error e, st)
      | .ok record =>
        if token ≠ record.token then
          match set_redis_token f.redisSet st record with
          | .error e => (.error e, st)
          | .ok st1 => (.error .invalidToken, st1)
        else (.ok (), st)

/-- Fault flags for `create_appauth`, in source order: `pg_pool.acquire()`,
the `INSERT`, the read-back `SELECT`, and the redis cache write. -/
structure CreateFaults where
  pgConn : Bool
  pgInsert : Bool
  pgFind : Bool
  redisSet : Bool
deriving DecidableEq, Repr

/-- Embedding of `create_appauth` (postgres_redis.rs:97-104): insert into
postgres, read back the canonical record, then write the token into redis
with `set_redis_token`; every step propagates its error with `?` (there is
no transaction, so a later failure leaves the inserted row in place). -/
def create_appauth (f : CreateFaults) (st : St) (appauth : NewAppAuth) :
    Except Error AppAuth × St :=
  if f.pgConn then (.error .sqlx, st)
  else match insert_app_auth f.pgInsert st appauth with
    | .error e => (.error e, st)
    | .ok (id, st1) =>
      match find_appauth_by_id f.pgFind st1 id with
      | .error e => (.error e, st1)
      | .ok record =>
        match set_redis_token f.redisSet st1 record with
        | .error e => (.error e, st1)
        | .ok st2 => (.ok record, st2)

/-- Fixture for the cold-cache scenario: the cache is empty and the
durable table holds the record with token `T1` at id 0. -/
def recC1 : AppAuth :=
  { id := 0, name := "app", description := none, token := "T1",
    meta := "m", expiresAt := none }

/-- State for the cold-cache scenario. -/
def stC1 : St :=
  { redis := fun _ => none,
    pg := fun k => if k = 0 then some recC1 else none,
    pgNextId := 1 }

/-- Payload fixture for the create-with-failing-cache scenario. -/
def naC2 : NewAppAuth :=
  { name := "svc", description := none, token := "T1", meta := "m",
    expiresAt := none }

/-- Empty-store state for the create-with-failing-cache scenario. -/
def stC2 : St :=
  { redis := fun _ => none, pg := fun _ => none, pgNextId := 0 }

/-- Fault assignment where only the redis cache write fails. -/
def onlyRedisSetFails : CreateFaults :=
  { pgConn := false, pgInsert := false, pgFind := false, redisSet := true }

/-- Fault assignment where the initial redis connection acquisition fails. -/
def redisConnFails : VerifyFaults :=
  { redisConn := true, redisGet := false, pgConn := false,
    pgQuery := false, redisSet := false }

/-- Fault assignment where the redis `GET` round trip fails. -/
def redisGetFails : VerifyFaults :=
  { redisConn := false, redisGet := true, pgConn := false,
    pgQuery := false, redisSet := false }

/-- Fixture record for the cache-error scenario: durable token `T1`. -/
def recC3 : AppAuth :=
  { id := 0, name := "app", description := none, token := "T1",
    meta := "m", expiresAt := none }

/-- State for the cache-error scenario: the durable store holds a record
whose token matches what will be presented. -/
def stC3 : St :=
  { redis := fun _ => none,
    pg := fun k => if k = 0 then some recC3 else none,
    pgNextId := 1 }

/-- Fixture record for the poisoned-cache scenario: the durable token has
been rotated to `T2`. -/
def recC4 : AppAuth :=
  { id := 0, name := "app", description := none, token := "T2",
    meta := "m", expiresAt := none }

/-- State for the poisoned-cache scenario: the cache still holds the old
token `T1` while the durable store holds `T2`. -/
def stC4 : St :=
  { redis := fun k => if k = 0 then some ("T1", none) else none,
    pg := fun k => if k = 0 then some recC4 else none,
    pgNextId := 1 }

/-- Fixture record for the amended stale-cache self-heal theorem: durable
token `T2`, cache entry absent. -/
def recC4w : AppAuth :=
  { id := 0, name := "app", description := none, token := "T2",
    meta := "m", expiresAt := none }

/-- State for the amended stale-cache self-heal witness. -/
def stC4w : St :=
  { redis := fun _ => none,
    pg := fun k => if k = 0 then some recC4w else none,
    pgNextId := 1 }

end AppauthPR

/-! ## Memory session backend: `src/session/memory.rs`, plus the
`SessionHandler` policy wrapper of `src/session.rs` -/

namespace SessionMemory

/-- Error enum of `session/memory.rs` (and of the inline memory module of
`session.rs`): the only variant is not-found, carrying the session id. -/
inductive Error where
  | notFound (id : Nat)
deriving DecidableEq, Repr

/-- The memory `Session<U>` record: id, owning user id, and absolute
expiry instant. `DateTime<Utc>` instants are modelled as integers. -/
structure Session (U : Type) where
  id : Nat
  user_id : U
  expires_at : Int
deriving DecidableEq, Repr

/-- The in-process table guarded by the lock: a map from session id to
record. Lock acquisition cannot fail and is not modelled. -/
def Table (U : Type) := Nat → Option (Session U)

/-- Embedding of `new_session` (memory.rs:42-56): generate a fresh id
(passed in, standing for the random UUID), insert the record, return it. -/
def new_session (tbl : Table U) (newId : Nat) (user_id : U)
    (expires_at : Int) : Session U × Table U :=
  let s : Session U := { id := newId, user_id := user_id,
                         expires_at := expires_at }
  (s, fun k => if k = newId then some s else tbl k)

/-- Embedding of `session` (memory.rs:58-76): look up the id; if present
and `now < expires_at` return the record; if present but expired, remove
the record and report `NotFound`; if absent report `NotFound`. -/
def session (now : Int) (tbl : Table U) (id : Nat) :
    Except Error (Session U) × Table U :=
  match tbl id with
  | some v =>
    if now < v.expires_at then (.ok v, tbl)
    else (.error (.notFound id), fun k => if k = id then none else tbl k)
  | none => (.error (.notFound id), tbl)

/-- Embedding of `expire` (memory.rs:97-101): unconditionally remove the
record with the session's id; always returns `Ok(())`. -/
def expire (tbl : Table U) (s : Session U) : Except Error Unit × Table U :=
  (.ok (), fun k => if k = s.id then none else tbl k)

/-- Embedding of `extend_expiry_date` (memory.rs:103-114, identically
session.rs:260-271): look up the record by the session's id, failing with
`NotFound` if absent; otherwise overwrite its `expires_at` — with no check
whether the record is already past its expiry — and return the updated
record. -/
def extend_expiry_date (tbl : Table U) (s : Session U) (expires_at : Int) :
    Except Error (Session U) × Table U :=
  match tbl s.id with
  | none => (.error (.notFound s.id), tbl)
  | some v =>
    let v1 : Session U := { v with expires_at := expires_at }
    (.ok v1, fun k => if k = s.id then some v1 else tbl k)

/-- Embedding of `SessionHandler::new_session` (session.rs:73-76):
compute `expires_at = now + alive_duration` and delegate to the backend. -/
def handler_new_session (alive_duration : Int) (now : Int) (tbl : Table U)
    (newId : Nat) (user_id : U) : Session U × Table U :=
  new_session tbl newId user_id (now + alive_duration)

/-- Fixture table for the expiry theorems: one session, id 0, user 7,
expiring at instant 5. -/
def s6 : Session Nat := { id := 0, user_id := 7, expires_at := 5 }

/-- Fixture table holding exactly `s6`. -/
def tbl6 : Table Nat := fun k => if k = 0 then some s6 else none

/-- Fixture session for the lazy-expiry witness. -/
def s7 : Session Nat := { id := 0, user_id := 7, expires_at := 5 }

/-- Fixture table holding exactly `s7`. -/
def tbl7 : Table Nat := fun k => if k = 0 then some s7 else none

end SessionMemory

/-! ## Password-reset issuance and consumption (spec-modelled) -/

namespace ResetFlow

/-- Consumption error: the reset id is absent, expired, or already
consumed. -/
inductive Error where
  | notFound
deriving DecidableEq, Repr

/-- Reset-id store: each id maps to the bound user id and the expiry
instant; `nextId` stands for fresh random id generation. -/
structure St (U : Type) where
  resets : Nat → Option (U × Int)
  nextId : Nat

/-- Modelled from the spec: `generate_password_reset_id` is `todo!()` in
both cited backends (src/session/memory.rs:116-122 and
src/session/postgres.rs:55-61) — only the trait declaration exists. Per
spec §4.3, issuance creates a fresh `PasswordResetId` bound to `user_id`
with its own expiry. -/
def generate_password_reset_id (st : St U) (user_id : U)
    (expires_at : Int) : Nat × St U :=
  (st.nextId,
   { resets := fun k =>
       if k = st.nextId then some (user_id, expires_at) else st.resets k,
     nextId := st.nextId + 1 })

/-- Modelled from the spec: `consume_password_reset_id` is `todo!()` in
both cited backends (src/session/memory.rs:131-136 and
src/session/postgres.rs:70-75) — only the trait declaration exists. Per
spec §4.3, consumption in one atomic step verifies the id exists and is
unexpired, returns the bound user id, and deletes the id so a second
consumption fails with `NotFound`. -/
def consume_password_reset_id (now : Int) (st : St U) (id : Nat) :
    Except Error U × St U :=
  match st.resets id with
  | none => (.error .notFound, st)
  | some (u, expiry) =>
    if now < expiry then
      (.ok u,
       { st with resets := fun k => if k = id then none else st.resets k })
    else (.error .notFound, st)

/-- Empty reset store fixture. -/
def stR0 : St Nat := { resets := fun _ => none, nextId := 0 }

end ResetFlow

/-- Byte length of a character list under UTF-8, matching Rust's
`str::len` on the corresponding string. -/
def utf8LenL (l : List Char) : Nat := (l.map Char.utf8Size).sum

/-- Byte length of a string under UTF-8 (Rust `str::len`). -/
def utf8Len (s : String) : Nat := utf8LenL s.data

/-! ## Password strategy: `src/password_strategy.rs` -/

namespace Password

/-- Construction error enum of `password_strategy.rs`. -/
inductive ConstructionError where
  | pepperTooWeak
  | memoryUseTooWeak
  | iterationTooWeak
  | parallelismTooWeak
deriving DecidableEq, Repr

/-- The `Argon2idStrategy` configuration: pepper bytes, memory cost in
MiB, iteration count, parallelism degree. -/
structure Argon2idStrategy where
  pepper : List Nat
  memory_mib : Nat
  iteration_count : Nat
  parallelism_degree : Nat
deriving DecidableEq, Repr

/-- Embedding of `Argon2idStrategy::new` (password_strategy.rs:48-76):
the four floor checks, in source order. -/
def Argon2idStrategy.new (pepper : List Nat)
    (memory_mib iteration_count parallelism_degree : Nat) :
    Except ConstructionError Argon2idStrategy :=
  if pepper.length < 8 then .error .pepperTooWeak
  else if memory_mib < 15 then .error .memoryUseTooWeak
  else if iteration_count < 2 then .error .iterationTooWeak
  else if parallelism_degree < 1 then .error .parallelismTooWeak
  else .ok { pepper := pepper, memory_mib := memory_mib,
             iteration_count := iteration_count,
             parallelism_degree := parallelism_degree }

/-- Hashing error enum (`argon2id::Error`): password too short, or an
error from the argon2 library. -/
inductive HashError where
  | passwordTooShort
  | argon2PasswordHash
deriving DecidableEq, Repr

/-- The argon2 `Params` embedded in a produced hash: `m_cost` (KiB),
`t_cost`, `p_cost`. -/
structure Argon2Params where
  m_cost : Nat
  t_cost : Nat
  p_cost : Nat
deriving DecidableEq, Repr

/-- A produced password hash in parsed form. The argon2 crate's PHC
string encoding (`to_string`) and parsing (`PasswordHash::new`) are
external collaborator code; their round trip is modelled as the identity
on this parsed record, which carries exactly what the encoded string
embeds: the cost parameters, the salt, and the derived output. -/
structure PasswordHashRec where
  params : Argon2Params
  salt : String
  output : List Nat
deriving DecidableEq, Repr

/-- Type of the argon2id key-derivation primitive of the external argon2
crate: a deterministic function of the process pepper, the cost
parameters, the salt and the password. The development is parametric in
it; no property beyond determinism is assumed. -/
def Argon2Fn : Type :=
  List Nat → Argon2Params → String → String → List Nat

/-- Embedding of `generate_password_hash` (password_strategy.rs:106-132):
reject inputs whose byte length (`input.len()`) is under 8, then derive
the output with the configured parameters and the given salt
(`SaltString::generate`'s random salt is the explicit `salt` argument)
and return the encoded hash. -/
def generate_password_hash (phi : Argon2Fn) (strat : Argon2idStrategy)
    (salt : String) (input : String) : Except HashError PasswordHashRec :=
  if utf8Len input < 8 then .error .passwordTooShort
  else
    let params : Argon2Params :=
      { m_cost := strat.memory_mib * 1024, t_cost := strat.iteration_count,
        p_cost := strat.parallelism_degree }
    .ok { params := params, salt := salt,
          output := phi strat.pepper params salt input }

/-- Embedding of `verify_password` (password_strategy.rs:134-145):
re-derive the output from the parameters and salt embedded in the stored
hash together with the strategy's pepper, returning `Ok(true)` on a
match and `Ok(false)` on the argon2 password-mismatch error. -/
def verify_password (phi : Argon2Fn) (strat : Argon2idStrategy)
    (hash : PasswordHashRec) (input : String) : Except HashError Bool :=
  if phi strat.pepper hash.params hash.salt input = hash.output then
    .ok true
  else .ok false

/-- Concrete derivation function used by witnesses: any computable
instance of `Argon2Fn` suffices, since the theorems are parametric. -/
def phi0 : Argon2Fn :=
  fun pepper params salt input =>
    [pepper.length + params.m_cost + salt.length + input.length]

/-- A validly constructed strategy fixture: 8-byte pepper, 15 MiB, 2
iterations, parallelism 1 — exactly the floors. -/
def strat8 : Argon2idStrategy :=
  { pepper := [0, 1, 2, 3, 4, 5, 6, 7], memory_mib := 15,
    iteration_count := 2, parallelism_degree := 1 }

end Password

/-! ## Identifier policy types: `src/username/ascii.rs`,
`src/username/email.rs`, `src/user.rs` -/

namespace UsernameV

/-- Rust's `char::is_whitespace`: the Unicode White_Space code points. -/
def rustIsWhitespace (c : Char) : Bool :=
  let n := c.toNat
  n = 0x09 || n = 0x0A || n = 0x0B || n = 0x0C || n = 0x0D || n = 0x20 ||
  n = 0x85 || n = 0xA0 || n = 0x1680 || (0x2000 ≤ n && n ≤ 0x200A) ||
  n = 0x2028 || n = 0x2029 || n = 0x202F || n = 0x205F || n = 0x3000

/-- Leading-whitespace removal half of Rust's `str::trim`. -/
def trimLeftChars (l : List Char) : List Char :=
  l.dropWhile rustIsWhitespace

/-- Trailing-whitespace removal half of Rust's `str::trim`. -/
def trimRightChars (l : List Char) : List Char :=
  (l.reverse.dropWhile rustIsWhitespace).reverse

/-- Rust's `str::trim` on the character list. -/
def trimChars (l : List Char) : List Char :=
  trimRightChars (trimLeftChars l)

/-- Rust's `str::trim` on strings. -/
def rustTrim (s : String) : String := String.mk (trimChars s.data)

/-- Rust's `char::is_ascii`: code point at most 0x7F. -/
def isAsciiChar (c : Char) : Bool := c.toNat ≤ 0x7F

/-- Rust's `char::is_ascii_graphic`: printable ASCII from `!` to `~`. -/
def isAsciiGraphic (c : Char) : Bool :=
  0x21 ≤ c.toNat && c.toNat ≤ 0x7E

/-- `TryIntoAsciiUsernameError` of `username/ascii.rs`. -/
inductive AsciiErr where
  | empty
  | nonPrintable
  | nonAscii
  | usernameTooLong
deriving DecidableEq, Repr

/-- The per-character loop of `AsciiUsername::from_str`
(ascii.rs:54-62): for each character in order, a non-ASCII character
yields `NonAscii`, then a non-graphic one yields `NonPrintable`. -/
def asciiCheckChars : List Char → Option AsciiErr
  | [] => none
  | c :: cs =>
    if !isAsciiChar c then some .nonAscii
    else if !isAsciiGraphic c then some .nonPrintable
    else asciiCheckChars cs

/-- Validation body of `AsciiUsername::from_str` on the already-trimmed
text (ascii.rs:46-64): empty check (`value.len() == 0`, bytes), 64-byte
cap, then the per-character loop; on success the trimmed text is stored. -/
def asciiValidate (value : List Char) : Except AsciiErr String :=
  if utf8LenL value = 0 then .error .empty
  else if utf8LenL value > 64 then .error .usernameTooLong
  else match asciiCheckChars value with
    | some e => .error e
    | none => .ok (String.mk value)

/-- Embedding of `AsciiUsername::from_str` (ascii.rs:43-65): trim, then
validate the trimmed text. `TryFrom<String>` delegates here via `parse`. -/
def AsciiUsername.from_str (s : String) : Except AsciiErr String :=
  asciiValidate (trimChars s.data)

/-- `TryIntoEmailUsernameError` of `username/email.rs`. -/
inductive EmailErr where
  | empty
  | notValidEmail
  | usernameTooLong
deriving DecidableEq, Repr

/-- Validation body of `EmailUsername::from_str` on the already-trimmed
text (email.rs:44-56): empty check, 64-byte cap, then the external
`validator::validate_email` collaborator, passed in as `ve`. -/
def emailValidate (ve : String → Bool) (value : List Char) :
    Except EmailErr String :=
  if value.isEmpty then .error .empty
  else if utf8LenL value > 64 then .error .usernameTooLong
  else if !ve (String.mk value) then .error .notValidEmail
  else .ok (String.mk value)

/-- Embedding of `EmailUsername::from_str` (email.rs:41-58): trim, then
validate the trimmed text. `TryFrom<String>` delegates here via `parse`. -/
def EmailUsername.from_str (ve : String → Bool) (s : String) :
    Except EmailErr String :=
  emailValidate ve (trimChars s.data)

/-- `TryIntoUsernameError` of `user.rs`. -/
inductive UserErr where
  | empty
  | nonPrintable
  | nonAscii
  | usernameTooLong
deriving DecidableEq, Repr

/-- The per-character loop of `Username::try_from` (user.rs:101-109). -/
def userCheckChars : List Char → Option UserErr
  | [] => none
  | c :: cs =>
    if !isAsciiChar c then some .nonAscii
    else if !isAsciiGraphic c then some .nonPrintable
    else userCheckChars cs

/-- Validation body of `Username::try_from` on the already-trimmed text
(user.rs:93-111). -/
def userValidate (value : List Char) : Except UserErr String :=
  if utf8LenL value = 0 then .error .empty
  else if utf8LenL value > 64 then .error .usernameTooLong
  else match userCheckChars value with
    | some e => .error e
    | none => .ok (String.mk value)

/-- Embedding of `Username::try_from` of `user.rs` (user.rs:90-112):
trim, then validate the trimmed text. -/
def Username.try_from (s : String) : Except UserErr String :=
  userValidate (trimChars s.data)

end UsernameV

/-! ## Theorems for claims C1 to C4 -/

namespace AppauthPR

/-- C1: the claim as stated is false on the code. At a cold cache with a
matching durable token, `verify_token` succeeds but does NOT backfill the
cache: after the call the cache entry for the id is still absent. -/
theorem C1_cold_cache_counterexample :
    (verify_token noFaults stC1 0 "T1").1 = .ok () ∧
    (verify_token noFaults stC1 0 "T1").2.redis 0 = none :=
  ⟨rfl, rfl⟩

/-- C1 (amended): on a cold cache whose durable record's token equals the
presented token, `verify_token` succeeds and leaves the state — in
particular the still-absent cache entry — unchanged; there is no
backfill. -/
theorem C1_cold_cache_match_succeeds_without_backfill
    (st : St) (id : Nat) (t : String) (r : AppAuth)
    (h1 : st.redis id = none) (h2 : st.pg id = some r)
    (h3 : r.token = t) :
    verify_token noFaults st id t = (.ok (), st) := by
  subst h3
  simp [verify_token, noFaults, find_appauth_by_id, h1, h2]

/-- C1 witness: the amended theorem applied to the concrete cold-cache
fixture. -/
theorem C1_cold_cache_witness :
    verify_token noFaults stC1 0 "T1" = (.ok (), stC1) :=
  C1_cold_cache_match_succeeds_without_backfill stC1 0 "T1" recC1 rfl rfl rfl

/-- C2: the claim as stated is false on the code. With a healthy durable
store and a failing cache write, `create_appauth` does not succeed: the
cache-write error is propagated (as a redis pool error) even though the
durable insert has committed. -/
theorem C2_create_cache_failure_counterexample :
    (create_appauth onlyRedisSetFails stC2 naC2).1 = .error .redisPool ∧
    (create_appauth onlyRedisSetFails stC2 naC2).2.pg 0 =
      some { id := 0, name := "svc", description := none, token := "T1",
             meta := "m", expiresAt := none } :=
  ⟨rfl, rfl⟩

/-- C2 (amended): when the durable insert and the canonical read-back
succeed but the fast-cache write fails, `create_appauth` fails with the
propagated cache error, while the durable row remains inserted. -/
theorem C2_create_propagates_cache_write_error (st : St) (na : NewAppAuth) :
    (create_appauth onlyRedisSetFails st na).1 = .error .redisPool ∧
    (create_appauth onlyRedisSetFails st na).2.pg st.pgNextId =
      some { id := st.pgNextId, name := na.name,
             description := na.description, token := na.token,
             meta := na.meta, expiresAt := na.expiresAt } := by
  simp [create_appauth, onlyRedisSetFails, insert_app_auth,
    find_appauth_by_id, set_redis_token]

/-- C2 witness: the propagation theorem applied to the empty store and
the concrete payload. -/
theorem C2_create_propagation_witness :
    (create_appauth onlyRedisSetFails stC2 naC2).1 = .error .redisPool ∧
    (create_appauth onlyRedisSetFails stC2 naC2).2.pg stC2.pgNextId =
      some { id := stC2.pgNextId, name := naC2.name,
             description := naC2.description, token := naC2.token,
             meta := naC2.meta, expiresAt := naC2.expiresAt } :=
  C2_create_propagates_cache_write_error stC2 naC2

/-- C3: the claim as stated is false on the code. With the durable record
matching the presented token but the cache connection failing,
`verify_token` fails with the cache's pool error instead of falling back
to the durable store. -/
theorem C3_cache_error_counterexample :
    stC3.pg 0 = some recC3 ∧ recC3.token = "T1" ∧
    (verify_token redisConnFails stC3 0 "T1").1 = .error .redisPool :=
  ⟨rfl, rfl, rfl⟩

/-- C3 (amended): a storage error on the initial cache lookup — either
acquiring the redis connection or the `GET` itself — is propagated and is
fatal to `verify_token`; the durable-store fallback happens only on a
successful cache round trip that returns no value or a non-matching
value. -/
theorem C3_cache_error_is_fatal (st : St) (id : Nat) (t : String) :
    verify_token redisConnFails st id t = (.error .redisPool, st) ∧
    verify_token redisGetFails st id t = (.error .redis, st) :=
  ⟨rfl, rfl⟩

/-- C3 witness: the fatality theorem applied to the concrete
matching-durable-record state. -/
theorem C3_cache_error_witness :
    verify_token redisConnFails stC3 0 "T1" = (.error .redisPool, stC3) ∧
    verify_token redisGetFails stC3 0 "T1" = (.error .redis, stC3) :=
  C3_cache_error_is_fatal stC3 0 "T1"

/-- C4: the claim as stated is false on the code. If the cache still holds
the presented (old) token while the durable store holds a rotated token,
`verify_token` accepts the presented token at the cache hit — it does not
fail with `InvalidToken` and never consults the durable store. -/
theorem C4_stale_cache_accept_counterexample :
    stC4.pg 0 = some recC4 ∧ recC4.token ≠ "T1" ∧
    (verify_token noFaults stC4 0 "T1").1 = .ok () :=
  ⟨rfl, by decide, rfl⟩

/-- C4 (amended): when the cache entry for the id is absent or differs
from the presented token, and the durable record exists with a token
different from the presented one, `verify_token` fails with
`InvalidToken` and rewrites the cache entry with the durable store's
authoritative token and expiry. -/
theorem C4_mismatch_rewrites_cache_and_rejects
    (st : St) (id : Nat) (t : String) (r : AppAuth)
    (hc : (st.redis id).map Prod.fst ≠ some t)
    (hp : st.pg id = some r) (ht : r.token ≠ t) (hid : r.id = id) :
    (verify_token noFaults st id t).1 = .error .invalidToken ∧
    (verify_token noFaults st id t).2.redis id =
      some (r.token, r.expiresAt) := by
  have hhit : (match st.redis id with
      | some rt => decide (rt.1 = t)
      | none => false) = false := by
    cases h : st.redis id with
    | none => rfl
    | some rt =>
      rw [h] at hc
      simp only [Option.map_some'] at hc
      simp only [decide_eq_false_iff_not]
      exact fun he => hc (congrArg some he)
  have hneq : t ≠ r.token := fun he => ht he.symm
  constructor
  · simp [verify_token, noFaults, hhit, find_appauth_by_id, hp,
      set_redis_token, hneq]
  · simp [verify_token, noFaults, hhit, find_appauth_by_id, hp,
      set_redis_token, hneq, hid]

/-- C4 witness: the amended theorem applied to a concrete state with an
evicted cache entry and a rotated durable token. -/
theorem C4_mismatch_witness :
    (verify_token noFaults stC4w 0 "T1").1 = .error .invalidToken ∧
    (verify_token noFaults stC4w 0 "T1").2.redis 0 = some ("T2", none) :=
  C4_mismatch_rewrites_cache_and_rejects stC4w 0 "T1" recC4w
    (by simp [stC4w]) rfl (by decide) rfl

end AppauthPR

/-! ## Theorems for claims C5 to C7 -/

namespace ResetFlow

/-- C5: a freshly issued reset id, consumed before its expiry, yields the
bound user id; a second consumption of the same id — at any time — fails
with `NotFound`, because the first consumption deleted the id in the same
atomic step. -/
theorem C5_reset_id_single_use {U : Type} (st : St U) (u : U)
    (expiry now now2 : Int) (h : now < expiry) :
    (consume_password_reset_id now
      (generate_password_reset_id st u expiry).2
      (generate_password_reset_id st u expiry).1).1 = .ok u ∧
    (consume_password_reset_id now2
      (consume_password_reset_id now
        (generate_password_reset_id st u expiry).2
        (generate_password_reset_id st u expiry).1).2
      (generate_password_reset_id st u expiry).1).1 = .error .notFound := by
  simp [generate_password_reset_id, consume_password_reset_id, h]

/-- C5 witness: the single-use theorem at the empty store with user 7,
expiry 5 and consumption times 3 and 100. -/
theorem C5_reset_id_witness :
    (consume_password_reset_id 3
      (generate_password_reset_id stR0 7 5).2
      (generate_password_reset_id stR0 7 5).1).1 = .ok 7 ∧
    (consume_password_reset_id 100
      (consume_password_reset_id 3
        (generate_password_reset_id stR0 7 5).2
        (generate_password_reset_id stR0 7 5).1).2
      (generate_password_reset_id stR0 7 5).1).1 = .error .notFound :=
  C5_reset_id_single_use stR0 7 5 3 100 (by decide)

end ResetFlow

namespace SessionMemory

/-- C6: the claim as stated is false on the code. A session whose expiry
(instant 5) is already past at the current time (instant 10) — so a read
would report it absent — is revived by `extend_expiry_date` to a future
expiry (instant 20): the extension succeeds and a subsequent read at the
same current time returns the session as active. -/
theorem C6_expired_revival_counterexample :
    (session 10 tbl6 0).1 = .error (.notFound 0) ∧
    (extend_expiry_date tbl6 s6 20).1 =
      .ok { id := 0, user_id := 7, expires_at := 20 } ∧
    (session 10 (extend_expiry_date tbl6 s6 20).2 0).1 =
      .ok { id := 0, user_id := 7, expires_at := 20 } :=
  ⟨rfl, rfl, rfl⟩

/-- C6 (amended): once a session is Deleted — removed by `expire`, or
removed by a read that observed it past its expiry — no operation brings
it back: both `extend_expiry_date` and a read fail with `NotFound`.
(An expired session that has not yet been removed can still be revived by
`extend_expiry_date`, as the counterexample shows.) -/
theorem C6_no_revival_after_removal {U : Type} (tbl : Table U)
    (s : Session U) (e2 now : Int) (v : Session U) :
    ((extend_expiry_date (expire tbl s).2 s e2).1 =
        .error (.notFound s.id) ∧
      (session now (expire tbl s).2 s.id).1 = .error (.notFound s.id)) ∧
    (tbl s.id = some v → v.expires_at ≤ now →
      (extend_expiry_date (session now tbl s.id).2 s e2).1 =
        .error (.notFound s.id)) := by
  refine ⟨⟨?_, ?_⟩, ?_⟩
  · simp [extend_expiry_date, expire]
  · simp [session, expire]
  · intro hv hle
    have hnow : ¬ now < v.expires_at := not_lt.mpr hle
    simp [session, hv, hnow, extend_expiry_date]

/-- C6 witness: the no-revival theorem at the one-session fixture table,
covering both the explicit-expire path and the lazy-removal-by-read path. -/
theorem C6_no_revival_witness :
    ((extend_expiry_date (expire tbl6 s6).2 s6 20).1 =
        .error (.notFound 0) ∧
      (session 10 (expire tbl6 s6).2 0).1 = .error (.notFound 0)) ∧
    (extend_expiry_date (session 10 tbl6 0).2 s6 20).1 =
      .error (.notFound 0) :=
  ⟨(C6_no_revival_after_removal tbl6 s6 20 10 s6).1,
   (C6_no_revival_after_removal tbl6 s6 20 10 s6).2 rfl (by decide)⟩

/-- C7: lazy expiry of the memory backend. A read after the stored expiry
reports `NotFound` and removes the record from the table; a read strictly
before the expiry returns the stored record unchanged; and a session
created through the handler with a negative `alive_duration` is already
expired at creation, so an immediate read reports `NotFound` and removes
it. -/
theorem C7_lazy_expiry {U : Type} (now : Int) (tbl : Table U) (id : Nat)
    (v : Session U) (u : U) (newId : Nat) (alive : Int)
    (h : tbl id = some v) (halive : alive < 0) :
    (v.expires_at < now →
      (session now tbl id).1 = .error (.notFound id) ∧
      (session now tbl id).2 id = none) ∧
    (now < v.expires_at → session now tbl id = (.ok v, tbl)) ∧
    ((session now (handler_new_session alive now tbl newId u).2 newId).1 =
        .error (.notFound newId) ∧
      (session now (handler_new_session alive now tbl newId u).2 newId).2
          newId = none) := by
  refine ⟨?_, ?_, ?_⟩
  · intro hlt
    have hnow : ¬ now < v.expires_at := not_lt.mpr (le_of_lt hlt)
    simp [session, h, hnow]
  · intro hlt
    simp [session, h, hlt]
  · have hnow : ¬ now < now + alive := by
      intro hc
      have : (0 : Int) < alive := by linarith
      exact absurd this (not_lt.mpr (le_of_lt halive))
    simp [session, handler_new_session, new_session, hnow]

/-- C7 witness: the lazy-expiry theorem at the one-session fixture table
(expiry 5), read at instant 10 (expired case discharged), together with a
handler creation at `alive_duration = -1`. -/
theorem C7_lazy_expiry_witness :
    ((session 10 tbl7 0).1 = .error (.notFound 0) ∧
      (session 10 tbl7 0).2 0 = none) ∧
    ((session 10 (handler_new_session (-1) 10 tbl7 3 7).2 3).1 =
        .error (.notFound 3) ∧
      (session 10 (handler_new_session (-1) 10 tbl7 3 7).2 3).2 3 = none) :=
  ⟨(C7_lazy_expiry 10 tbl7 0 s7 7 3 (-1) rfl (by decide)).1 (by decide),
   (C7_lazy_expiry 10 tbl7 0 s7 7 3 (-1) rfl (by decide)).2.2⟩

end SessionMemory

/-! ## Theorems for claims C8 and C9 -/

/-- Every character occupies at least one byte under UTF-8, so a string
has at least as many bytes as characters. -/
theorem length_le_utf8Len (s : String) : s.length ≤ utf8Len s := by
  unfold utf8Len utf8LenL
  rw [String.length]
  induction s.data with
  | nil => simp
  | cons c l ih =>
    simp only [List.map_cons, List.sum_cons, List.length_cons]
    have := Char.utf8Size_pos c
    omega

namespace Password

/-- C8: for any derivation function, any validly constructed strategy,
any salt, and any password of at least 8 characters, hashing succeeds and
verifying the produced hash against the same password returns `Ok(true)`:
verification re-derives the output from the parameters and salt embedded
in the hash, which are exactly those hashing used. -/
theorem C8_hash_verify_round_trip (phi : Argon2Fn) (pepper : List Nat)
    (m it par : Nat) (strat : Argon2idStrategy) (salt p : String)
    (_hnew : Argon2idStrategy.new pepper m it par = .ok strat)
    (hp : 8 ≤ p.length) :
    ∃ hrec, generate_password_hash phi strat salt p = .ok hrec ∧
      verify_password phi strat hrec p = .ok true := by
  have h1 : p.length ≤ utf8Len p := length_le_utf8Len p
  have hbytes : ¬ utf8Len p < 8 := by omega
  unfold generate_password_hash
  rw [if_neg hbytes]
  exact ⟨_, rfl, by simp [verify_password]⟩

/-- C8 witness: the round trip at the floor-valued strategy, a concrete
derivation function, salt `salt` and password `password1`. -/
theorem C8_round_trip_witness :
    ∃ hrec,
      generate_password_hash phi0 strat8 "salt" "password1" = .ok hrec ∧
      verify_password phi0 strat8 hrec "password1" = .ok true :=
  C8_hash_verify_round_trip phi0 [0, 1, 2, 3, 4, 5, 6, 7] 15 2 1 strat8
    "salt" "password1" rfl (by decide)

/-- C9: the claim as stated is false on the code. The length check is on
bytes (`input.len()`), not characters: the four-character password `éééé`
is under 8 characters, yet its UTF-8 length is 8 bytes, so
`generate_password_hash` does not fail with `PasswordTooShort`. -/
theorem C9_char_length_counterexample :
    "éééé".length < 8 ∧
    generate_password_hash phi0 strat8 "s" "éééé" ≠
      .error .passwordTooShort := by
  constructor
  · decide
  · decide

/-- C9 (amended): `generate_password_hash` fails with `PasswordTooShort`
exactly when the input is under 8 BYTES in UTF-8 (`input.len()`); since
every character is at least one byte, an input of 8 or more characters
never yields `PasswordTooShort`. -/
theorem C9_too_short_iff_under_8_bytes (phi : Argon2Fn)
    (strat : Argon2idStrategy) (salt p : String) :
    (generate_password_hash phi strat salt p = .error .passwordTooShort ↔
      utf8Len p < 8) ∧
    (8 ≤ p.length →
      generate_password_hash phi strat salt p ≠
        .error .passwordTooShort) := by
  constructor
  · unfold generate_password_hash
    by_cases hb : utf8Len p < 8
    · simp [hb]
    · simp [hb]
  · intro hp
    have h1 : p.length ≤ utf8Len p := length_le_utf8Len p
    have hb : ¬ utf8Len p < 8 := by omega
    simp [generate_password_hash, hb]

/-- C9 witness: the amended theorem at a two-byte-short password `pw` and
at the 8-character password `password`. -/
theorem C9_too_short_witness :
    (generate_password_hash phi0 strat8 "s" "pw" =
        .error .passwordTooShort ↔ utf8Len "pw" < 8) ∧
    generate_password_hash phi0 strat8 "s" "password" ≠
      .error .passwordTooShort :=
  ⟨(C9_too_short_iff_under_8_bytes phi0 strat8 "s" "pw").1,
   (C9_too_short_iff_under_8_bytes phi0 strat8 "s" "password").2
     (by decide)⟩

end Password

/-! ## Theorems for claim C10 -/

namespace UsernameV

/-- Dropping a satisfying block before a list is the same as dropping on
the tail list alone. -/
theorem dropWhile_append_of_forall {p : Char → Bool} (a b : List Char)
    (h : ∀ c ∈ a, p c = true) :
    List.dropWhile p (a ++ b) = List.dropWhile p b := by
  induction a with
  | nil => simp
  | cons x a ih =>
    have hx : p x = true := h x (List.mem_cons_self x a)
    simp only [List.cons_append, List.dropWhile_cons, hx, if_true]
    exact ih (fun c hc => h c (List.mem_cons_of_mem x hc))

/-- Dropping over a list all of whose elements satisfy the test yields
the empty list. -/
theorem dropWhile_eq_nil_of_forall {p : Char → Bool} (a : List Char)
    (h : ∀ c ∈ a, p c = true) :
    List.dropWhile p a = [] := by
  have := dropWhile_append_of_forall a [] h
  simpa using this

/-- Right trimming ignores a trailing all-whitespace block. -/
theorem trimRight_append_ws (x w : List Char)
    (hw : ∀ c ∈ w, rustIsWhitespace c = true) :
    trimRightChars (x ++ w) = trimRightChars x := by
  unfold trimRightChars
  rw [List.reverse_append]
  rw [dropWhile_append_of_forall w.reverse x.reverse
    (fun c hc => hw c (List.mem_reverse.mp hc))]

/-- Trimming ignores a leading all-whitespace block. -/
theorem trimChars_ws_append (w l : List Char)
    (hw : ∀ c ∈ w, rustIsWhitespace c = true) :
    trimChars (w ++ l) = trimChars l := by
  unfold trimChars trimLeftChars
  rw [dropWhile_append_of_forall w l hw]

/-- Trimming ignores a trailing all-whitespace block. -/
theorem trimChars_append_ws (w : List Char)
    (hw : ∀ c ∈ w, rustIsWhitespace c = true) :
    ∀ l : List Char, trimChars (l ++ w) = trimChars l := by
  intro l
  induction l with
  | nil =>
    rw [List.nil_append]
    unfold trimChars trimLeftChars
    rw [dropWhile_eq_nil_of_forall w hw, List.dropWhile_nil]
  | cons c l ih =>
    by_cases hc : rustIsWhitespace c
    · unfold trimChars trimLeftChars
      simp only [List.cons_append, List.dropWhile_cons, hc, if_true]
      unfold trimChars trimLeftChars at ih
      exact ih
    · unfold trimChars trimLeftChars
      simp only [List.cons_append, List.dropWhile_cons, hc, if_false]
      rw [← List.cons_append]
      exact trimRight_append_ws (c :: l) w hw

/-- Trimming strips surrounding all-whitespace blocks entirely. -/
theorem trimChars_surround (w1 w2 l : List Char)
    (h1 : ∀ c ∈ w1, rustIsWhitespace c = true)
    (h2 : ∀ c ∈ w2, rustIsWhitespace c = true) :
    trimChars (w1 ++ l ++ w2) = trimChars l := by
  rw [List.append_assoc, trimChars_ws_append w1 (l ++ w2) h1,
    trimChars_append_ws w2 h2 l]

/-- An all-whitespace list trims to the empty list. -/
theorem trimChars_nil_of_ws (l : List Char)
    (h : ∀ c ∈ l, rustIsWhitespace c = true) :
    trimChars l = [] := by
  unfold trimChars trimLeftChars
  rw [dropWhile_eq_nil_of_forall l h]
  rfl

/-- On success, `asciiValidate` stores exactly its input text. -/
theorem asciiValidate_ok (v : List Char) (u : String)
    (h : asciiValidate v = .ok u) : u = String.mk v := by
  unfold asciiValidate at h
  split at h
  · exact Except.noConfusion h
  · split at h
    · exact Except.noConfusion h
    · split at h
      · exact Except.noConfusion h
      · injection h with h
        exact h.symm

/-- On success, `emailValidate` stores exactly its input text. -/
theorem emailValidate_ok (ve : String → Bool) (v : List Char) (u : String)
    (h : emailValidate ve v = .ok u) : u = String.mk v := by
  unfold emailValidate at h
  split at h
  · exact Except.noConfusion h
  · split at h
    · exact Except.noConfusion h
    · split at h
      · exact Except.noConfusion h
      · injection h with h
        exact h.symm

/-- On success, `userValidate` stores exactly its input text. -/
theorem userValidate_ok (v : List Char) (u : String)
    (h : userValidate v = .ok u) : u = String.mk v := by
  unfold userValidate at h
  split at h
  · exact Except.noConfusion h
  · split at h
    · exact Except.noConfusion h
    · split at h
      · exact Except.noConfusion h
      · injection h with h
        exact h.symm

/-- C10: all three identifier parsers trim first and validate only the
trimmed text — surrounding whitespace does not change the outcome, an
all-whitespace input fails with `Empty`, and a successful parse stores
the trimmed string — so two inputs differing only in surrounding
whitespace parse to equal identifiers. -/
theorem C10_identifier_trimming
    (ve : String → Bool) (s w1 w2 : String) (u1 u2 u3 : String)
    (hw1 : ∀ c ∈ w1.data, rustIsWhitespace c = true)
    (hw2 : ∀ c ∈ w2.data, rustIsWhitespace c = true) :
    (AsciiUsername.from_str (w1 ++ s ++ w2) = AsciiUsername.from_str s ∧
      EmailUsername.from_str ve (w1 ++ s ++ w2) =
        EmailUsername.from_str ve s ∧
      Username.try_from (w1 ++ s ++ w2) = Username.try_from s) ∧
    ((∀ c ∈ s.data, rustIsWhitespace c = true) →
      AsciiUsername.from_str s = .error .empty ∧
      EmailUsername.from_str ve s = .error .empty ∧
      Username.try_from s = .error .empty) ∧
    (AsciiUsername.from_str s = .ok u1 → u1 = rustTrim s) ∧
    (EmailUsername.from_str ve s = .ok u2 → u2 = rustTrim s) ∧
    (Username.try_from s = .ok u3 → u3 = rustTrim s) := by
  have hdata : (w1 ++ s ++ w2).data = w1.data ++ s.data ++ w2.data := by
    rw [String.data_append, String.data_append]
  have htrim : trimChars (w1 ++ s ++ w2).data = trimChars s.data := by
    rw [hdata]
    exact trimChars_surround _ _ _ hw1 hw2
  refine ⟨⟨?_, ?_, ?_⟩, ?_, ?_, ?_, ?_⟩
  · unfold AsciiUsername.from_str
    rw [htrim]
  · unfold EmailUsername.from_str
    rw [htrim]
  · unfold Username.try_from
    rw [htrim]
  · intro hs
    have h0 : trimChars s.data = [] := trimChars_nil_of_ws s.data hs
    refine ⟨?_, ?_, ?_⟩ <;>
      simp [AsciiUsername.from_str, EmailUsername.from_str,
        Username.try_from, h0, asciiValidate, emailValidate, userValidate,
        utf8LenL]
  · exact fun h => asciiValidate_ok _ _ h
  · exact fun h => emailValidate_ok ve _ _ h
  · exact fun h => userValidate_ok _ _ h

/-- C10 witness: the trimming theorem at `s = "ab"` surrounded by a space
and a tab, with the always-true external email validator; both the
invariance conjunct and a discharged stored-value conjunct. -/
theorem C10_identifier_trimming_witness :
    (AsciiUsername.from_str (" " ++ "ab" ++ "\t") =
        AsciiUsername.from_str "ab" ∧
      EmailUsername.from_str (fun _ => true) (" " ++ "ab" ++ "\t") =
        EmailUsername.from_str (fun _ => true) "ab" ∧
      Username.try_from (" " ++ "ab" ++ "\t") = Username.try_from "ab") ∧
    "ab" = rustTrim "ab" :=
  ⟨(C10_identifier_trimming (fun _ => true) "ab" " " "\t" "ab" "ab" "ab"
      (by decide) (by decide)).1,
   (C10_identifier_trimming (fun _ => true) "ab" " " "\t" "ab" "ab" "ab"
      (by decide) (by decide)).2.2.1 (by decide)⟩

end UsernameV
